import Mathlib

/-!
# OsdGLDrawContext (opensubdiv/osd/glDrawContext.cpp)

A shallow embedding of the OpenGL draw context of OpenSubdiv: construction in
uniform mode (`allocateUniform`) and adaptive mode (`allocate`), the generic
`createTextureBuffer`, the per-frame `updateVertexTexture` and the destructor.

The C++ code is a sequence of OpenGL calls on the members of the context, so
the embedding passes two states explicitly: the OpenGL object state
(`GLState`) and the context (`OsdGLDrawContext`).  The preprocessor symbols
the source branches on are the fields of `BuildConfig`.

Sizes of vectors are natural numbers: the source's `(int)` casts of
`size()` are exact for every vector of fewer than `2^31` elements.
-/

namespace OpenSubdiv

/-! ## OpenGL object model -/

/-- Buffer binding points used by the source. -/
inductive BufferTarget where
  | GL_ARRAY_BUFFER
  | GL_ELEMENT_ARRAY_BUFFER
  | GL_TEXTURE_BUFFER
deriving DecidableEq, Repr

/-- Sized internal formats handed to `glTexBuffer`. -/
inductive GLFormat where
  | GL_RG32I
  | GL_R32F
  | GL_R32I
deriving DecidableEq, Repr

/-- Error flag values of the GL (`glGetError`). -/
inductive GLError where
  | GL_NO_ERROR
  | GL_INVALID_OPERATION
  | GL_OUT_OF_MEMORY
deriving DecidableEq, Repr

/-- The part of the OpenGL state the draw context touches.
`buffers` are the buffer objects in use, each name with its data store (a
sequence of scalar words); `textures` the texture names in use, each with the
buffer attached through `glTexBuffer`, if any.  `memoryLimit` is the largest
data store, in bytes, the GL is able to create. -/
structure GLState where
  buffers : List (Nat × List Int)
  textures : List (Nat × Option (GLFormat × Nat))
  arrayBufferBinding : Nat
  elementArrayBufferBinding : Nat
  textureBufferBinding : Nat
  textureBinding : Nat
  memoryLimit : Nat
  error : GLError
deriving DecidableEq, Repr

/-- An unused, non-zero object name: one above every name in use. -/
def freshName (names : List Nat) : Nat :=
  names.foldr max 0 + 1

/-- Names of the buffer objects in use. -/
def GLState.bufferNames (gl : GLState) : List Nat :=
  gl.buffers.map Prod.fst

/-- Names of the textures in use. -/
def GLState.textureNames (gl : GLState) : List Nat :=
  gl.textures.map Prod.fst

/-- The buffer bound to a target. -/
def GLState.binding (gl : GLState) : BufferTarget → Nat
  | .GL_ARRAY_BUFFER => gl.arrayBufferBinding
  | .GL_ELEMENT_ARRAY_BUFFER => gl.elementArrayBufferBinding
  | .GL_TEXTURE_BUFFER => gl.textureBufferBinding

/-- The data store of the buffer object `name`, if the name is in use. -/
def GLState.store (gl : GLState) (name : Nat) : Option (List Int) :=
  List.lookup name gl.buffers

/-- The call `glGenBuffers(1, &name)`: returns an unused buffer name, now in use. -/
def glGenBuffers (gl : GLState) : GLState × Nat :=
  let name := freshName gl.bufferNames
  ({ gl with buffers := (name, []) :: gl.buffers }, name)

/-- The call `glGenTextures(1, &name)`: returns an unused texture name, now in use. -/
def glGenTextures (gl : GLState) : GLState × Nat :=
  let name := freshName gl.textureNames
  ({ gl with textures := (name, none) :: gl.textures }, name)

/-- The call `glBindBuffer(target, name)`. -/
def glBindBuffer (gl : GLState) (target : BufferTarget) (name : Nat) : GLState :=
  match target with
  | .GL_ARRAY_BUFFER => { gl with arrayBufferBinding := name }
  | .GL_ELEMENT_ARRAY_BUFFER => { gl with elementArrayBufferBinding := name }
  | .GL_TEXTURE_BUFFER => { gl with textureBufferBinding := name }

/-- Replace the data store of the buffer object `name`. -/
def setStore (name : Nat) (store : List Int) :
    List (Nat × List Int) → List (Nat × List Int)
  | [] => []
  | (n, s) :: rest =>
    (if n = name then (n, store) else (n, s)) :: setStore name store rest

/-- The call `glBufferData(target, size, data, GL_STATIC_DRAW)`, where `data`
points at scalar words of `wordBytes` bytes each: the first `size` bytes become
the data store of the buffer bound to `target`.  With no buffer bound the GL
raises `GL_INVALID_OPERATION`; when it cannot create a store of `size` bytes it
raises `GL_OUT_OF_MEMORY`; in both cases no store is written. -/
def glBufferData (gl : GLState) (target : BufferTarget) (size wordBytes : Nat)
    (data : List Int) : GLState :=
  if gl.binding target = 0 then { gl with error := .GL_INVALID_OPERATION }
  else if gl.memoryLimit < size then { gl with error := .GL_OUT_OF_MEMORY }
  else { gl with buffers := setStore (gl.binding target) (data.take (size / wordBytes)) gl.buffers }

/-- The call `glBindTexture(GL_TEXTURE_BUFFER, name)`. -/
def glBindTexture (gl : GLState) (name : Nat) : GLState :=
  { gl with textureBinding := name }

/-- Attach `buffer` with `format` to the texture `name`. -/
def setAttachment (name : Nat) (format : GLFormat) (buffer : Nat) :
    List (Nat × Option (GLFormat × Nat)) → List (Nat × Option (GLFormat × Nat))
  | [] => []
  | (n, a) :: rest =>
    (if n = name then (n, some (format, buffer)) else (n, a)) ::
      setAttachment name format buffer rest

/-- The call `glTexBuffer(GL_TEXTURE_BUFFER, format, buffer)`: the texture bound
to `GL_TEXTURE_BUFFER` becomes a view of `buffer`. -/
def glTexBuffer (gl : GLState) (format : GLFormat) (buffer : Nat) : GLState :=
  { gl with textures := setAttachment gl.textureBinding format buffer gl.textures }

/-- The call `glDeleteBuffers(1, &name)`: the name is no longer in use and its
bindings revert to zero; the name zero is silently ignored. -/
def glDeleteBuffers (gl : GLState) (name : Nat) : GLState :=
  if name = 0 then gl
  else
    { gl with
      buffers := gl.buffers.filter (fun b => b.1 ≠ name)
      arrayBufferBinding := if gl.arrayBufferBinding = name then 0 else gl.arrayBufferBinding
      elementArrayBufferBinding :=
        if gl.elementArrayBufferBinding = name then 0 else gl.elementArrayBufferBinding
      textureBufferBinding :=
        if gl.textureBufferBinding = name then 0 else gl.textureBufferBinding }

/-- The call `glDeleteTextures(1, &name)`: the name is no longer in use and its
binding reverts to zero; the name zero is silently ignored. -/
def glDeleteTextures (gl : GLState) (name : Nat) : GLState :=
  if name = 0 then gl
  else
    { gl with
      textures := gl.textures.filter (fun t => t.1 ≠ name)
      textureBinding := if gl.textureBinding = name then 0 else gl.textureBinding }

/-- A GL with no object in use and `memoryLimit` bytes available per store. -/
def GLState.initial (memoryLimit : Nat) : GLState :=
  { buffers := [], textures := [], arrayBufferBinding := 0, elementArrayBufferBinding := 0,
    textureBufferBinding := 0, textureBinding := 0, memoryLimit := memoryLimit,
    error := .GL_NO_ERROR }

/-! ## Data model -/

/-- Preprocessor symbols the source branches on.
`GL_ES_VERSION_2_0` selects the triangle-fallback index buffer;
`textureBufferObject` stands for
`defined(GL_ARB_texture_buffer_object) || defined(GL_VERSION_3_1)`. -/
structure BuildConfig where
  GL_ES_VERSION_2_0 : Bool
  textureBufferObject : Bool
deriving DecidableEq, Repr

/-- Modelled from the spec: the patch descriptor class (declared in
osd/drawContext.h, not among the sources): patch type, transition pattern,
rotation, number of control points and the mutable element count per vertex. -/
structure PatchDescriptor where
  patchType : Nat
  transitionPattern : Nat
  rotation : Nat
  numControlPoints : Nat
  numElements : Int
deriving DecidableEq, Repr

/-- Modelled from the spec: accessor of the descriptor's element count. -/
def PatchDescriptor.GetNumElements (desc : PatchDescriptor) : Int :=
  desc.numElements

/-- Modelled from the spec: setter of the descriptor's element count, the one
field that is mutable after construction. -/
def PatchDescriptor.SetNumElements (desc : PatchDescriptor) (numElements : Int) :
    PatchDescriptor :=
  { desc with numElements := numElements }

/-- Modelled from the spec: the patch array class (declared in
osd/drawContext.h, not among the sources): one contiguous run of patches
sharing a descriptor. -/
structure PatchArray where
  desc : PatchDescriptor
  firstIndex : Nat
  numIndices : Nat
  numPatches : Nat
  auxiliaryBaseOffset : Nat
deriving DecidableEq, Repr

/-- Modelled from the spec: accessor of a patch array's descriptor. -/
def PatchArray.GetDescriptor (parray : PatchArray) : PatchDescriptor :=
  parray.desc

/-- Modelled from the spec: setter of a patch array's descriptor. -/
def PatchArray.SetDescriptor (parray : PatchArray) (desc : PatchDescriptor) : PatchArray :=
  { parray with desc := desc }

/-- Modelled from the spec: one ptex coordinate (FarPtexCoord, declared in the
far library), a pair of 32-bit words as the `GL_RG32I` format reads it. -/
structure FarPtexCoord where
  faceIndex : Int
  bitField : Int
deriving DecidableEq, Repr

/-- The scalar words of a ptex coordinate table, as laid out in memory. -/
def ptexWords (coords : List FarPtexCoord) : List Int :=
  coords.flatMap (fun c => [c.faceIndex, c.bitField])

/-- Modelled from the spec: one per-type array entry of the upstream patch
table (FarPatchTables::PatchArray, declared in the far library). -/
structure FarPatchArray where
  patchType : Nat
  transitionPattern : Nat
  rotation : Nat
  firstIndex : Nat
  numPatches : Nat
  auxiliaryOffset : Nat
deriving DecidableEq, Repr

/-- Modelled from the spec: the patch-table abstraction the adaptive path
consumes (FarPatchTables, declared in the far library), one field per getter the
source calls.  Floats are carried as their 32-bit patterns. -/
structure FarPatchTables where
  GetAllPatchArrays : List FarPatchArray
  GetMaxValence : Int
  GetPatchTable : List Int
  GetPtexCoordinatesTable : List FarPtexCoord
  GetFVarDataTable : List Int
  GetVertexValenceTable : List Int
  GetQuadOffsetTable : List Int
deriving DecidableEq, Repr

/-- Modelled from the spec: the mesh abstraction the uniform path consumes
(FarMesh, declared in the far library), one field per getter the source calls;
the per-level getters are functions of the level. -/
structure FarMesh where
  GetPatchTables : Option FarPatchTables
  GetMaxLevel : Int
  GetFaceVertices : Int → List Int
  GetPtexCoordinates : Int → List FarPtexCoord
  GetFVarData : Int → List Int

/-- The signature of `ConvertPatchArrays` (defined in osd/drawContext.cpp, not
among the sources): the upstream arrays, the patch arrays of the context it
writes to, the maximum valence and the number of elements. -/
abbrev Converter := List FarPatchArray → List PatchArray → Int → Int → List PatchArray

/-- The members of `OsdGLDrawContext`.  A handle is a GL object name, zero
meaning absent.  `patchTrianglesIndexBuffer` exists on GL ES 2 builds only and
stays zero elsewhere. -/
structure OsdGLDrawContext where
  _isAdaptive : Bool
  patchArrays : List PatchArray
  patchIndexBuffer : Nat
  patchTrianglesIndexBuffer : Nat
  ptexCoordinateTextureBuffer : Nat
  fvarDataTextureBuffer : Nat
  vertexTextureBuffer : Nat
  vertexValenceTextureBuffer : Nat
  quadOffsetTextureBuffer : Nat
deriving DecidableEq, Repr

/-! ## The source functions -/

/-- The constructor `OsdGLDrawContext::OsdGLDrawContext()`: every handle of the
initialiser list is zero.  `patchTrianglesIndexBuffer`, which the list omits,
and the members of the base class start at zero, false and empty. -/
def OsdGLDrawContext.new : OsdGLDrawContext :=
  { _isAdaptive := false, patchArrays := [], patchIndexBuffer := 0,
    patchTrianglesIndexBuffer := 0, ptexCoordinateTextureBuffer := 0,
    fvarDataTextureBuffer := 0, vertexTextureBuffer := 0,
    vertexValenceTextureBuffer := 0, quadOffsetTextureBuffer := 0 }

/-- The destructor `OsdGLDrawContext::~OsdGLDrawContext()`: the GL state after
its six delete calls. -/
def OsdGLDrawContext.destroy (ctx : OsdGLDrawContext) (gl : GLState) : GLState :=
  let gl := glDeleteBuffers gl ctx.patchIndexBuffer
  let gl := glDeleteTextures gl ctx.vertexTextureBuffer
  let gl := glDeleteTextures gl ctx.vertexValenceTextureBuffer
  let gl := glDeleteTextures gl ctx.quadOffsetTextureBuffer
  let gl := glDeleteTextures gl ctx.ptexCoordinateTextureBuffer
  glDeleteTextures gl ctx.fvarDataTextureBuffer

/-- The conversion `short(x)` of an `int`: the value modulo `2^16`, in
`-32768 .. 32767`. -/
def toShort (x : Int) : Int :=
  (x + 32768) % 65536 - 32768

/-- The loop `for (int i=0; i<numQuads; ++i)` of `allocateUniform`, with
`remaining = numQuads - i` iterations to go: each one pushes the six narrowed
corners of quad `i` onto `trisIndices`. -/
def splitQuadsLoop (indices : List Int) : Nat → Nat → List Int → List Int
  | 0, _, trisIndices => trisIndices
  | remaining + 1, i, trisIndices =>
    let quad := fun (j : Nat) => indices.getD (i * 4 + j) 0
    let trisIndices := trisIndices ++ [toShort (quad 0)]
    let trisIndices := trisIndices ++ [toShort (quad 1)]
    let trisIndices := trisIndices ++ [toShort (quad 2)]
    let trisIndices := trisIndices ++ [toShort (quad 2)]
    let trisIndices := trisIndices ++ [toShort (quad 3)]
    let trisIndices := trisIndices ++ [toShort (quad 0)]
    splitQuadsLoop indices remaining (i + 1) trisIndices

/-- The vector `trisIndices` that `allocateUniform` builds on GL ES 2: the
result of the loop started at quad 0 on the empty vector. -/
def trisIndicesOf (indices : List Int) : List Int :=
  let numQuads := indices.length / 4
  splitQuadsLoop indices numQuads 0 []

/-- The method `OsdGLDrawContext::allocateUniform`: the GL state and context
after the call, and its return value. -/
def OsdGLDrawContext.allocateUniform (cfg : BuildConfig) (gl : GLState)
    (ctx : OsdGLDrawContext) (farMesh : FarMesh) (requireFVarData : Bool) :
    GLState × OsdGLDrawContext × Bool :=
  let ctx := { ctx with _isAdaptive := false }
  let level := farMesh.GetMaxLevel
  let indices := farMesh.GetFaceVertices (level - 1)
  let numIndices := indices.length
  -- Allocate and fill index buffer.
  let (gl, name) := glGenBuffers gl
  let ctx := { ctx with patchIndexBuffer := name }
  let gl := glBindBuffer gl .GL_ELEMENT_ARRAY_BUFFER ctx.patchIndexBuffer
  let gl := glBufferData gl .GL_ELEMENT_ARRAY_BUFFER (numIndices * 4) 4 indices
  let (gl, ctx) :=
    if cfg.GL_ES_VERSION_2_0 then
      let numQuads := indices.length / 4
      let numTrisIndices := numQuads * 6
      let trisIndices := trisIndicesOf indices
      -- Allocate and fill triangles index buffer.
      let (gl, name) := glGenBuffers gl
      let ctx := { ctx with patchTrianglesIndexBuffer := name }
      let gl := glBindBuffer gl .GL_ELEMENT_ARRAY_BUFFER ctx.patchTrianglesIndexBuffer
      let gl := glBufferData gl .GL_ELEMENT_ARRAY_BUFFER (numTrisIndices * 2) 2 trisIndices
      (gl, ctx)
    else (gl, ctx)
  -- Allocate ptex coordinate buffer
  let (gl, ctx) :=
    if cfg.textureBufferObject then
      let (gl, name) := glGenTextures gl
      let ctx := { ctx with ptexCoordinateTextureBuffer := name }
      let (gl, ptexCoordinateBuffer) := glGenBuffers gl
      let gl := glBindBuffer gl .GL_TEXTURE_BUFFER ptexCoordinateBuffer
      let ptexCoordinates := farMesh.GetPtexCoordinates (level - 1)
      let size := ptexCoordinates.length * 8
      let gl := glBufferData gl .GL_TEXTURE_BUFFER size 4 (ptexWords ptexCoordinates)
      let gl := glBindTexture gl ctx.ptexCoordinateTextureBuffer
      let gl := glTexBuffer gl .GL_RG32I ptexCoordinateBuffer
      let gl := glBindTexture gl 0
      let gl := glDeleteBuffers gl ptexCoordinateBuffer
      (gl, ctx)
    else (gl, ctx)
  -- Allocate fvar data buffer if requested (for non-adaptive)
  let (gl, ctx) :=
    if requireFVarData && cfg.textureBufferObject then
      let (gl, name) := glGenTextures gl
      let ctx := { ctx with fvarDataTextureBuffer := name }
      let (gl, fvarDataBuffer) := glGenBuffers gl
      let gl := glBindBuffer gl .GL_TEXTURE_BUFFER fvarDataBuffer
      let fvarData := farMesh.GetFVarData (level - 1)
      let size := fvarData.length * 4
      let gl := glBufferData gl .GL_TEXTURE_BUFFER size 4 fvarData
      let gl := glBindTexture gl ctx.fvarDataTextureBuffer
      let gl := glTexBuffer gl .GL_R32F fvarDataBuffer
      let gl := glDeleteBuffers gl fvarDataBuffer
      let gl := glBindTexture gl 0
      (gl, ctx)
    else (gl, ctx)
  (gl, ctx, true)

/-- The function template `createTextureBuffer<T>(data, format)`: `size` is
`data.size()`, `elemBytes` is `sizeof(typename T::value_type)` and `words` the
scalar words `&data[0]` points at.  Returns the GL state after the call and
the texture name. -/
def createTextureBuffer (cfg : BuildConfig) (gl : GLState) (size elemBytes : Nat)
    (words : List Int) (format : GLFormat) : GLState × Nat :=
  let texture := 0
  if cfg.textureBufferObject then
    let (gl, texture) := glGenTextures gl
    let (gl, buffer) := glGenBuffers gl
    let gl := glBindBuffer gl .GL_ARRAY_BUFFER buffer
    let gl := glBufferData gl .GL_ARRAY_BUFFER (size * elemBytes) 4 words
    let gl := glBindBuffer gl .GL_ARRAY_BUFFER 0
    let gl := glBindTexture gl texture
    let gl := glTexBuffer gl format buffer
    let gl := glDeleteBuffers gl buffer
    (gl, texture)
  else (gl, texture)

/-- The method `OsdGLDrawContext::allocate`: the GL state and context after the
call, and its return value.  `ConvertPatchArrays` is the conversion routine of
the base class. -/
def OsdGLDrawContext.allocate (cfg : BuildConfig) (ConvertPatchArrays : Converter)
    (gl : GLState) (ctx : OsdGLDrawContext) (patchTables : FarPatchTables)
    (requireFVarData : Bool) : GLState × OsdGLDrawContext × Bool :=
  let ctx := { ctx with _isAdaptive := true }
  let ctx := { ctx with
    patchArrays := ConvertPatchArrays patchTables.GetAllPatchArrays ctx.patchArrays
      patchTables.GetMaxValence 0 }
  let ptables := patchTables.GetPatchTable
  -- Allocate and fill index buffer.
  let (gl, name) := glGenBuffers gl
  let ctx := { ctx with patchIndexBuffer := name }
  let gl := glBindBuffer gl .GL_ELEMENT_ARRAY_BUFFER ctx.patchIndexBuffer
  let gl := glBufferData gl .GL_ELEMENT_ARRAY_BUFFER (ptables.length * 4) 4 ptables
  let gl := glBindBuffer gl .GL_ELEMENT_ARRAY_BUFFER 0
  let ptexCoordTables := patchTables.GetPtexCoordinatesTable
  -- create ptex coordinate buffer
  let (gl, ctx) :=
    if !ptexCoordTables.isEmpty then
      let (gl, texture) :=
        createTextureBuffer cfg gl ptexCoordTables.length 8 (ptexWords ptexCoordTables) .GL_RG32I
      (gl, { ctx with ptexCoordinateTextureBuffer := texture })
    else (gl, ctx)
  let fvarTables := patchTables.GetFVarDataTable
  -- create fvar data buffer if requested
  let (gl, ctx) :=
    if requireFVarData && !fvarTables.isEmpty then
      let (gl, texture) := createTextureBuffer cfg gl fvarTables.length 4 fvarTables .GL_R32F
      (gl, { ctx with fvarDataTextureBuffer := texture })
    else (gl, ctx)
  let valenceTable := patchTables.GetVertexValenceTable
  -- create vertex valence buffer and vertex texture
  let (gl, ctx) :=
    if !valenceTable.isEmpty then
      let (gl, texture) := createTextureBuffer cfg gl valenceTable.length 4 valenceTable .GL_R32I
      let ctx := { ctx with vertexValenceTextureBuffer := texture }
      -- also create vertex texture buffer (will be updated in UpdateVertexTexture())
      let (gl, name) := glGenTextures gl
      (gl, { ctx with vertexTextureBuffer := name })
    else (gl, ctx)
  -- create quad offset table buffer
  let quadOffsetTable := patchTables.GetQuadOffsetTable
  let (gl, ctx) :=
    if !quadOffsetTable.isEmpty then
      let (gl, texture) :=
        createTextureBuffer cfg gl quadOffsetTable.length 4 quadOffsetTable .GL_R32I
      (gl, { ctx with quadOffsetTextureBuffer := texture })
    else (gl, ctx)
  let gl := glBindBuffer gl .GL_TEXTURE_BUFFER 0
  (gl, ctx, true)

/-- The overload `OsdGLDrawContext::Create(FarPatchTables const *, bool)`: the GL
state after the call and the context returned, `none` standing for `NULL`. -/
def OsdGLDrawContext.CreateFromPatchTables (cfg : BuildConfig)
    (ConvertPatchArrays : Converter) (gl : GLState) (patchTables : FarPatchTables)
    (requireFVarData : Bool) : GLState × Option OsdGLDrawContext :=
  let inst := OsdGLDrawContext.new
  let (gl, inst, ok) := inst.allocate cfg ConvertPatchArrays gl patchTables requireFVarData
  if ok then (gl, some inst)
  else (inst.destroy gl, none)

/-- The overload `OsdGLDrawContext::Create(FarMesh<OsdVertex> const *, bool)`: the
GL state after the call and the context returned, `none` standing for `NULL`. -/
def OsdGLDrawContext.Create (cfg : BuildConfig) (ConvertPatchArrays : Converter)
    (gl : GLState) (farMesh : FarMesh) (requireFVarData : Bool) :
    GLState × Option OsdGLDrawContext :=
  match farMesh.GetPatchTables with
  | some patchTables =>
    OsdGLDrawContext.CreateFromPatchTables cfg ConvertPatchArrays gl patchTables requireFVarData
  | none =>
    let inst := OsdGLDrawContext.new
    let (gl, inst, ok) := inst.allocateUniform cfg gl farMesh requireFVarData
    if ok then (gl, some inst)
    else (inst.destroy gl, none)

/-- The loop `for (int i = 0; i < (int)patchArrays.size(); ++i)` of
`updateVertexTexture`, with `remaining = size - i` iterations to go: each one
reads the descriptor of `patchArrays[i]`, sets its number of elements and
writes it back. -/
def updateNumElementsLoop (numVertexElements : Int) :
    Nat → Nat → List PatchArray → List PatchArray
  | 0, _, patchArrays => patchArrays
  | remaining + 1, i, patchArrays =>
    match patchArrays[i]? with
    | none => updateNumElementsLoop numVertexElements remaining (i + 1) patchArrays
    | some parray =>
      let desc := parray.GetDescriptor
      let desc := desc.SetNumElements numVertexElements
      let parray := parray.SetDescriptor desc
      updateNumElementsLoop numVertexElements remaining (i + 1) (patchArrays.set i parray)

/-- The method `OsdGLDrawContext::updateVertexTexture`: the GL state and the
context after the call. -/
def OsdGLDrawContext.updateVertexTexture (gl : GLState) (ctx : OsdGLDrawContext)
    (vbo : Nat) (numVertexElements : Int) : GLState × OsdGLDrawContext :=
  let gl := glBindTexture gl ctx.vertexTextureBuffer
  let gl := glTexBuffer gl .GL_R32F vbo
  let gl := glBindTexture gl 0
  -- updating num elements in descriptor with new vbo specs
  let patchArrays :=
    updateNumElementsLoop numVertexElements ctx.patchArrays.length 0 ctx.patchArrays
  (gl, { ctx with patchArrays := patchArrays })

/-! ## Concrete inputs used by the witnesses and counterexamples -/

/-- A dense mesh without patch table whose deepest level is one quad, with one
ptex coordinate and no face-varying data. -/
def oneQuadMesh : FarMesh :=
  { GetPatchTables := none, GetMaxLevel := 1,
    GetFaceVertices := fun _ => [0, 1, 2, 3],
    GetPtexCoordinates := fun _ => [⟨0, 0⟩],
    GetFVarData := fun _ => [] }

/-- A dense mesh without patch table whose deepest level is one quad and whose
ptex-coordinate and face-varying tables are empty. -/
def bareQuadMesh : FarMesh :=
  { GetPatchTables := none, GetMaxLevel := 1,
    GetFaceVertices := fun _ => [0, 1, 2, 3],
    GetPtexCoordinates := fun _ => [],
    GetFVarData := fun _ => [] }

/-- A patch table with one regular patch of sixteen control points and every
auxiliary table empty. -/
def oneRegularPatch : FarPatchTables :=
  { GetAllPatchArrays := [⟨0, 0, 0, 0, 1, 0⟩], GetMaxValence := 4,
    GetPatchTable := [0, 1, 2, 3, 4, 5, 6, 7, 8, 9, 10, 11, 12, 13, 14, 15],
    GetPtexCoordinatesTable := [], GetFVarDataTable := [], GetVertexValenceTable := [],
    GetQuadOffsetTable := [] }

/-- A mesh that exposes the patch table `oneRegularPatch`. -/
def adaptiveMesh : FarMesh :=
  { GetPatchTables := some oneRegularPatch, GetMaxLevel := 1,
    GetFaceVertices := fun _ => [],
    GetPtexCoordinates := fun _ => [],
    GetFVarData := fun _ => [] }

/-- A conversion routine for the concrete inputs: one patch array of sixteen
indices per upstream array. -/
def sampleConverter : Converter :=
  fun farArrays _ _ numElements =>
    farArrays.map fun a =>
      { desc := ⟨a.patchType, a.transitionPattern, a.rotation, 16, numElements⟩,
        firstIndex := a.firstIndex, numIndices := 16 * a.numPatches,
        numPatches := a.numPatches, auxiliaryBaseOffset := a.auxiliaryOffset }

/-- A GL ES 2 build: triangle fallback, no buffer-backed textures. -/
def glesConfig : BuildConfig :=
  { GL_ES_VERSION_2_0 := true, textureBufferObject := false }

/-- A desktop build: no triangle fallback, buffer-backed textures. -/
def desktopConfig : BuildConfig :=
  { GL_ES_VERSION_2_0 := false, textureBufferObject := true }

/-! ## The triangle fallback -/

theorem splitQuadsLoop_length (indices : List Int) (remaining i : Nat) (acc : List Int) :
    (splitQuadsLoop indices remaining i acc).length = acc.length + 6 * remaining := by
  induction remaining generalizing i acc with
  | zero => simp [splitQuadsLoop]
  | succ r ih =>
    simp only [splitQuadsLoop, ih, List.length_append, List.length_singleton]
    omega

theorem splitQuadsLoop_extends (indices : List Int) (remaining i : Nat) (acc : List Int) :
    ∃ rest, splitQuadsLoop indices remaining i acc = acc ++ rest := by
  induction remaining generalizing i acc with
  | zero => exact ⟨[], by simp [splitQuadsLoop]⟩
  | succ r ih =>
    simp only [splitQuadsLoop]
    obtain ⟨rest, h⟩ := ih (i + 1)
      (acc ++ [toShort (indices.getD (i * 4 + 0) 0)] ++ [toShort (indices.getD (i * 4 + 1) 0)]
        ++ [toShort (indices.getD (i * 4 + 2) 0)] ++ [toShort (indices.getD (i * 4 + 2) 0)]
        ++ [toShort (indices.getD (i * 4 + 3) 0)] ++ [toShort (indices.getD (i * 4 + 0) 0)])
    refine ⟨[toShort (indices.getD (i * 4 + 0) 0), toShort (indices.getD (i * 4 + 1) 0),
      toShort (indices.getD (i * 4 + 2) 0), toShort (indices.getD (i * 4 + 2) 0),
      toShort (indices.getD (i * 4 + 3) 0), toShort (indices.getD (i * 4 + 0) 0)] ++ rest, ?_⟩
    rw [h]
    simp

theorem splitQuadsLoop_quad (indices : List Int) (remaining i k : Nat) (acc : List Int)
    (hk : k < remaining) :
    ((splitQuadsLoop indices remaining i acc).drop (acc.length + 6 * k)).take 6 =
      [toShort (indices.getD ((i + k) * 4 + 0) 0), toShort (indices.getD ((i + k) * 4 + 1) 0),
       toShort (indices.getD ((i + k) * 4 + 2) 0), toShort (indices.getD ((i + k) * 4 + 2) 0),
       toShort (indices.getD ((i + k) * 4 + 3) 0), toShort (indices.getD ((i + k) * 4 + 0) 0)] := by
  induction remaining generalizing i k acc with
  | zero => omega
  | succ r ih =>
    simp only [splitQuadsLoop]
    cases k with
    | zero =>
      obtain ⟨rest, h⟩ := splitQuadsLoop_extends indices r (i + 1)
        (acc ++ [toShort (indices.getD (i * 4 + 0) 0)] ++ [toShort (indices.getD (i * 4 + 1) 0)]
          ++ [toShort (indices.getD (i * 4 + 2) 0)] ++ [toShort (indices.getD (i * 4 + 2) 0)]
          ++ [toShort (indices.getD (i * 4 + 3) 0)] ++ [toShort (indices.getD (i * 4 + 0) 0)])
      rw [h]
      simp [List.append_assoc, List.drop_append]
    | succ k =>
      have h := ih (i + 1) k
        (acc ++ [toShort (indices.getD (i * 4 + 0) 0)] ++ [toShort (indices.getD (i * 4 + 1) 0)]
          ++ [toShort (indices.getD (i * 4 + 2) 0)] ++ [toShort (indices.getD (i * 4 + 2) 0)]
          ++ [toShort (indices.getD (i * 4 + 3) 0)] ++ [toShort (indices.getD (i * 4 + 0) 0)])
        (by omega)
      have e1 : acc.length + 6 * (k + 1) =
          (acc ++ [toShort (indices.getD (i * 4 + 0) 0)] ++ [toShort (indices.getD (i * 4 + 1) 0)]
          ++ [toShort (indices.getD (i * 4 + 2) 0)] ++ [toShort (indices.getD (i * 4 + 2) 0)]
          ++ [toShort (indices.getD (i * 4 + 3) 0)] ++ [toShort (indices.getD (i * 4 + 0) 0)]).length
            + 6 * k := by
        simp only [List.length_append, List.length_singleton]; omega
      have e2 : i + (k + 1) = i + 1 + k := by omega
      rw [e1, e2]
      exact h

theorem toShort_of_inRange (x : Int) (h : -32768 ≤ x ∧ x < 32768) : toShort x = x := by
  unfold toShort
  omega

/-- C1 (as amended): on a GL ES 2 target, for every face-vertex index list and
every quad number `i` below the quad count, the input has entries `a b c d` at
positions `4i .. 4i+3` and the six entries of the triangle-fallback list at
positions `6i .. 6i+5` are `a b c c d a` each narrowed to a 16-bit `short`;
when the four corners lie in `-32768 .. 32767` they are `a b c c d a`
themselves. -/
theorem trisIndices_quad_narrowed (indices : List Int) (i : Nat)
    (hi : i < indices.length / 4) :
    ∃ a b c d : Int,
      indices[4 * i]? = some a ∧ indices[4 * i + 1]? = some b ∧
      indices[4 * i + 2]? = some c ∧ indices[4 * i + 3]? = some d ∧
      ((trisIndicesOf indices).drop (6 * i)).take 6 =
        [toShort a, toShort b, toShort c, toShort c, toShort d, toShort a] ∧
      ((∀ x ∈ [a, b, c, d], -32768 ≤ x ∧ x < 32768) →
        ((trisIndicesOf indices).drop (6 * i)).take 6 = [a, b, c, c, d, a]) := by
  have h0 : 4 * i < indices.length := by omega
  have h1 : 4 * i + 1 < indices.length := by omega
  have h2 : 4 * i + 2 < indices.length := by omega
  have h3 : 4 * i + 3 < indices.length := by omega
  have hq := splitQuadsLoop_quad indices (indices.length / 4) 0 i [] hi
  have e0 : (0 + i) * 4 + 0 = 4 * i := by omega
  have e1 : (0 + i) * 4 + 1 = 4 * i + 1 := by omega
  have e2 : (0 + i) * 4 + 2 = 4 * i + 2 := by omega
  have e3 : (0 + i) * 4 + 3 = 4 * i + 3 := by omega
  rw [e0, e1, e2, e3] at hq
  simp only [List.length_nil, Nat.zero_add] at hq
  have g0 : indices.getD (4 * i) 0 = indices[4 * i] := by
    simp [List.getD, List.getElem?_eq_getElem h0]
  have g1 : indices.getD (4 * i + 1) 0 = indices[4 * i + 1] := by
    simp [List.getD, List.getElem?_eq_getElem h1]
  have g2 : indices.getD (4 * i + 2) 0 = indices[4 * i + 2] := by
    simp [List.getD, List.getElem?_eq_getElem h2]
  have g3 : indices.getD (4 * i + 3) 0 = indices[4 * i + 3] := by
    simp [List.getD, List.getElem?_eq_getElem h3]
  rw [g0, g1, g2, g3] at hq
  refine ⟨indices[4 * i], indices[4 * i + 1], indices[4 * i + 2], indices[4 * i + 3],
    List.getElem?_eq_getElem h0, List.getElem?_eq_getElem h1, List.getElem?_eq_getElem h2,
    List.getElem?_eq_getElem h3, hq, ?_⟩
  intro hr
  have ra := toShort_of_inRange _ (hr indices[4 * i] (by simp))
  have rb := toShort_of_inRange _ (hr indices[4 * i + 1] (by simp))
  have rc := toShort_of_inRange _ (hr indices[4 * i + 2] (by simp))
  have rd := toShort_of_inRange _ (hr indices[4 * i + 3] (by simp))
  have hq2 := hq
  rw [ra, rb, rc, rd] at hq2
  exact hq2

/-- Witness of C1: the second quad of a two-quad list. -/
theorem trisIndices_quad_narrowed_witness :
    1 < ([0, 1, 2, 3, 4, 5, 6, 7] : List Int).length / 4 ∧
    ∃ a b c d : Int,
      ([0, 1, 2, 3, 4, 5, 6, 7] : List Int)[4 * 1]? = some a ∧
      ([0, 1, 2, 3, 4, 5, 6, 7] : List Int)[4 * 1 + 1]? = some b ∧
      ([0, 1, 2, 3, 4, 5, 6, 7] : List Int)[4 * 1 + 2]? = some c ∧
      ([0, 1, 2, 3, 4, 5, 6, 7] : List Int)[4 * 1 + 3]? = some d ∧
      ((trisIndicesOf [0, 1, 2, 3, 4, 5, 6, 7]).drop (6 * 1)).take 6 =
        [toShort a, toShort b, toShort c, toShort c, toShort d, toShort a] ∧
      ((∀ x ∈ [a, b, c, d], -32768 ≤ x ∧ x < 32768) →
        ((trisIndicesOf [0, 1, 2, 3, 4, 5, 6, 7]).drop (6 * 1)).take 6 = [a, b, c, c, d, a]) :=
  ⟨by decide, trisIndices_quad_narrowed [0, 1, 2, 3, 4, 5, 6, 7] 1 (by decide)⟩

/-- Counterexample to C1 as stated: the quad `(70000, 1, 2, 3)` is below the
quad count of its list, yet its first fallback corner is `4464`, not `70000`. -/
theorem trisIndices_quad_not_exact :
    0 < [70000, 1, 2, 3].length / 4 ∧
    ((trisIndicesOf [70000, 1, 2, 3]).drop (6 * 0)).take 6 = [4464, 1, 2, 2, 3, 4464] ∧
    ((trisIndicesOf [70000, 1, 2, 3]).drop (6 * 0)).take 6 ≠ [70000, 1, 2, 2, 3, 70000] := by
  decide

/-- C2 (as amended): the triangle-fallback list has exactly `6 * (n / 4)`
elements for an input of `n` entries, six per whole quad; twice its length is
three times `n` exactly when `n` is a multiple of four. -/
theorem trisIndices_length (indices : List Int) :
    (trisIndicesOf indices).length = 6 * (indices.length / 4) ∧
    (2 * (trisIndicesOf indices).length = 3 * indices.length ↔ indices.length % 4 = 0) := by
  have h : (trisIndicesOf indices).length = 6 * (indices.length / 4) := by
    simp [trisIndicesOf, splitQuadsLoop_length]
  refine ⟨h, ?_⟩
  rw [h]
  omega

/-- Counterexample to C2 as stated: one triangle (three entries, as a Loop
mesh has) gives an empty fallback list, and five entries give six. -/
theorem trisIndices_length_not_threeHalves :
    (trisIndicesOf [0, 1, 2]).length = 0 ∧
    2 * (trisIndicesOf [0, 1, 2]).length ≠ 3 * [0, 1, 2].length ∧
    (trisIndicesOf [0, 1, 2, 3, 4]).length = 6 ∧
    2 * (trisIndicesOf [0, 1, 2, 3, 4]).length ≠ 3 * [0, 1, 2, 3, 4].length := by
  decide

/-! ## The per-frame rebind -/

theorem updateNumElementsLoop_getElem? (k : Int) (remaining i : Nat)
    (patchArrays : List PatchArray) (n : Nat) :
    (updateNumElementsLoop k remaining i patchArrays)[n]? =
      if i ≤ n ∧ n < i + remaining then
        patchArrays[n]?.map (fun p => p.SetDescriptor (p.GetDescriptor.SetNumElements k))
      else patchArrays[n]? := by
  induction remaining generalizing i patchArrays with
  | zero =>
    have c : ¬ (i ≤ n ∧ n < i + 0) := by omega
    rw [if_neg c]
    rfl
  | succ r ih =>
    unfold updateNumElementsLoop
    cases hp : patchArrays[i]? with
    | none =>
      simp only [ih]
      by_cases hn : n = i
      · subst hn
        have c1 : ¬ (n + 1 ≤ n ∧ n < n + 1 + r) := by omega
        have c2 : n ≤ n ∧ n < n + (r + 1) := by omega
        simp [c1, c2, hp]
      · by_cases c : i ≤ n ∧ n < i + (r + 1)
        · have c1 : i + 1 ≤ n ∧ n < i + 1 + r := by omega
          simp [c, c1]
        · have c1 : ¬ (i + 1 ≤ n ∧ n < i + 1 + r) := by omega
          simp [c, c1]
    | some p =>
      simp only [ih]
      have hi : i < patchArrays.length := by
        by_contra hlt
        have := List.getElem?_eq_none (l := patchArrays) (n := i) (by omega)
        rw [this] at hp
        cases hp
      by_cases hn : n = i
      · subst hn
        have c1 : ¬ (n + 1 ≤ n ∧ n < n + 1 + r) := by omega
        have c2 : n ≤ n ∧ n < n + (r + 1) := by omega
        simp [c1, c2, hp, List.getElem?_set, hi]
      · have hne : i ≠ n := fun h => hn h.symm
        by_cases c : i ≤ n ∧ n < i + (r + 1)
        · have c1 : i + 1 ≤ n ∧ n < i + 1 + r := by omega
          simp [c, c1, List.getElem?_set_ne hne]
        · have c1 : ¬ (i + 1 ≤ n ∧ n < i + 1 + r) := by omega
          simp [c, c1, List.getElem?_set_ne hne]

theorem updateNumElementsLoop_eq_map (k : Int) (patchArrays : List PatchArray) :
    updateNumElementsLoop k patchArrays.length 0 patchArrays =
      patchArrays.map (fun p => p.SetDescriptor (p.GetDescriptor.SetNumElements k)) := by
  apply List.ext_getElem?
  intro n
  rw [updateNumElementsLoop_getElem?]
  by_cases c : n < patchArrays.length
  · have c1 : 0 ≤ n ∧ n < 0 + patchArrays.length := by omega
    rw [if_pos c1, List.getElem?_map]
  · have c1 : ¬ (0 ≤ n ∧ n < 0 + patchArrays.length) := by omega
    have h1 : patchArrays[n]? = none := List.getElem?_eq_none (by omega)
    rw [if_neg c1, List.getElem?_map, h1]
    rfl

theorem setAttachment_names (name : Nat) (format : GLFormat) (buffer : Nat)
    (textures : List (Nat × Option (GLFormat × Nat))) :
    (setAttachment name format buffer textures).map Prod.fst = textures.map Prod.fst := by
  induction textures with
  | nil => rfl
  | cons t rest ih =>
    obtain ⟨n, a⟩ := t
    simp only [setAttachment, List.map_cons, ih]
    split_ifs <;> rfl

/-- C3: after `updateVertexTexture(vbo, k)` the context has as many patch arrays
as before and the descriptor of every one of them reports `k` as its number of
elements. -/
theorem updateVertexTexture_numElements (gl : GLState) (ctx : OsdGLDrawContext)
    (vbo : Nat) (k : Int) :
    (ctx.updateVertexTexture gl vbo k).2.patchArrays.length = ctx.patchArrays.length ∧
    ∀ p ∈ (ctx.updateVertexTexture gl vbo k).2.patchArrays,
      p.GetDescriptor.GetNumElements = k := by
  simp only [OsdGLDrawContext.updateVertexTexture, updateNumElementsLoop_eq_map]
  refine ⟨by simp, ?_⟩
  intro p hp
  obtain ⟨q, _, rfl⟩ := List.mem_map.mp hp
  rfl

/-- Witness of C3: a context with two patch arrays of element counts 3 and 5,
rebound with 7 elements per vertex, still has two patch arrays and both
report 7. -/
theorem updateVertexTexture_numElements_witness :
    (OsdGLDrawContext.updateVertexTexture (GLState.initial 1024)
        { OsdGLDrawContext.new with
          patchArrays := [⟨⟨0, 0, 0, 16, 3⟩, 0, 16, 1, 0⟩, ⟨⟨1, 0, 0, 4, 5⟩, 16, 4, 1, 0⟩] }
        9 7).2.patchArrays.length = 2 ∧
    ∀ p ∈ (OsdGLDrawContext.updateVertexTexture (GLState.initial 1024)
        { OsdGLDrawContext.new with
          patchArrays := [⟨⟨0, 0, 0, 16, 3⟩, 0, 16, 1, 0⟩, ⟨⟨1, 0, 0, 4, 5⟩, 16, 4, 1, 0⟩] }
        9 7).2.patchArrays,
      p.GetDescriptor.GetNumElements = 7 :=
  updateVertexTexture_numElements (GLState.initial 1024)
    { OsdGLDrawContext.new with
      patchArrays := [⟨⟨0, 0, 0, 16, 3⟩, 0, 16, 1, 0⟩, ⟨⟨1, 0, 0, 4, 5⟩, 16, 4, 1, 0⟩] }
    9 7

/-- C10: `updateVertexTexture(vbo, k)` leaves every resource handle of the
context as it was, the vertex linear-texture handle included, allocates and
releases no GL object, and leaves the patch arrays the same in number, order
and every field other than the descriptor's element count. -/
theorem updateVertexTexture_frame (gl : GLState) (ctx : OsdGLDrawContext)
    (vbo : Nat) (k : Int) :
    (ctx.updateVertexTexture gl vbo k).2.vertexTextureBuffer = ctx.vertexTextureBuffer ∧
    (ctx.updateVertexTexture gl vbo k).2.patchIndexBuffer = ctx.patchIndexBuffer ∧
    (ctx.updateVertexTexture gl vbo k).2.patchTrianglesIndexBuffer =
      ctx.patchTrianglesIndexBuffer ∧
    (ctx.updateVertexTexture gl vbo k).2.ptexCoordinateTextureBuffer =
      ctx.ptexCoordinateTextureBuffer ∧
    (ctx.updateVertexTexture gl vbo k).2.fvarDataTextureBuffer = ctx.fvarDataTextureBuffer ∧
    (ctx.updateVertexTexture gl vbo k).2.vertexValenceTextureBuffer =
      ctx.vertexValenceTextureBuffer ∧
    (ctx.updateVertexTexture gl vbo k).2.quadOffsetTextureBuffer =
      ctx.quadOffsetTextureBuffer ∧
    (ctx.updateVertexTexture gl vbo k).1.textureNames = gl.textureNames ∧
    (ctx.updateVertexTexture gl vbo k).1.buffers = gl.buffers ∧
    (ctx.updateVertexTexture gl vbo k).2.patchArrays.length = ctx.patchArrays.length ∧
    (ctx.updateVertexTexture gl vbo k).2.patchArrays.map
        (fun p => (p.desc.patchType, p.desc.transitionPattern, p.desc.rotation,
          p.desc.numControlPoints, p.firstIndex, p.numIndices, p.numPatches,
          p.auxiliaryBaseOffset)) =
      ctx.patchArrays.map
        (fun p => (p.desc.patchType, p.desc.transitionPattern, p.desc.rotation,
          p.desc.numControlPoints, p.firstIndex, p.numIndices, p.numPatches,
          p.auxiliaryBaseOffset)) := by
  refine ⟨rfl, rfl, rfl, rfl, rfl, rfl, rfl, ?_, rfl, ?_, ?_⟩
  · simp only [OsdGLDrawContext.updateVertexTexture, GLState.textureNames, glBindTexture,
      glTexBuffer, setAttachment_names]
  · simp only [OsdGLDrawContext.updateVertexTexture, updateNumElementsLoop_eq_map,
      List.length_map]
  · simp only [OsdGLDrawContext.updateVertexTexture, updateNumElementsLoop_eq_map,
      List.map_map]
    rfl

/-! ## Construction -/

theorem allocate_isAdaptive (cfg : BuildConfig) (conv : Converter) (gl : GLState)
    (ctx : OsdGLDrawContext) (patchTables : FarPatchTables) (requireFVarData : Bool) :
    (ctx.allocate cfg conv gl patchTables requireFVarData).2.1._isAdaptive = true := by
  simp only [OsdGLDrawContext.allocate]
  split_ifs <;> rfl

theorem allocateUniform_isAdaptive (cfg : BuildConfig) (gl : GLState)
    (ctx : OsdGLDrawContext) (farMesh : FarMesh) (requireFVarData : Bool) :
    (ctx.allocateUniform cfg gl farMesh requireFVarData).2.1._isAdaptive = false := by
  simp only [OsdGLDrawContext.allocateUniform]
  split_ifs <;> rfl

theorem CreateFromPatchTables_eq (cfg : BuildConfig) (conv : Converter) (gl : GLState)
    (patchTables : FarPatchTables) (requireFVarData : Bool) :
    OsdGLDrawContext.CreateFromPatchTables cfg conv gl patchTables requireFVarData =
      ((OsdGLDrawContext.new.allocate cfg conv gl patchTables requireFVarData).1,
        some (OsdGLDrawContext.new.allocate cfg conv gl patchTables requireFVarData).2.1) := by
  simp only [OsdGLDrawContext.CreateFromPatchTables, OsdGLDrawContext.allocate]
  rfl

theorem Create_eq_uniform (cfg : BuildConfig) (conv : Converter) (gl : GLState)
    (farMesh : FarMesh) (requireFVarData : Bool) (h : farMesh.GetPatchTables = none) :
    OsdGLDrawContext.Create cfg conv gl farMesh requireFVarData =
      ((OsdGLDrawContext.new.allocateUniform cfg gl farMesh requireFVarData).1,
        some (OsdGLDrawContext.new.allocateUniform cfg gl farMesh requireFVarData).2.1) := by
  simp only [OsdGLDrawContext.Create, h, OsdGLDrawContext.allocateUniform]
  rfl

theorem Create_eq_adaptive (cfg : BuildConfig) (conv : Converter) (gl : GLState)
    (farMesh : FarMesh) (requireFVarData : Bool) (patchTables : FarPatchTables)
    (h : farMesh.GetPatchTables = some patchTables) :
    OsdGLDrawContext.Create cfg conv gl farMesh requireFVarData =
      OsdGLDrawContext.CreateFromPatchTables cfg conv gl patchTables requireFVarData := by
  simp only [OsdGLDrawContext.Create, h]

/-- C9: `Create(farMesh, requireFVarData)` returns a context whose mode flag is
adaptive exactly when the mesh exposes a patch table (and uniform exactly when
it does not), and `updateVertexTexture` leaves the flag as construction set
it. -/
theorem Create_mode (cfg : BuildConfig) (conv : Converter) (gl : GLState)
    (farMesh : FarMesh) (requireFVarData : Bool) :
    ∃ ctx, (OsdGLDrawContext.Create cfg conv gl farMesh requireFVarData).2 = some ctx ∧
      ctx._isAdaptive = farMesh.GetPatchTables.isSome ∧
      ∀ (gl2 : GLState) (vbo : Nat) (k : Int),
        (ctx.updateVertexTexture gl2 vbo k).2._isAdaptive = farMesh.GetPatchTables.isSome := by
  cases h : farMesh.GetPatchTables with
  | none =>
    rw [Create_eq_uniform cfg conv gl farMesh requireFVarData h]
    refine ⟨_, rfl, ?_, ?_⟩
    · simpa using allocateUniform_isAdaptive cfg gl OsdGLDrawContext.new farMesh requireFVarData
    · intro gl2 vbo k
      simpa [OsdGLDrawContext.updateVertexTexture] using
        allocateUniform_isAdaptive cfg gl OsdGLDrawContext.new farMesh requireFVarData
  | some patchTables =>
    rw [Create_eq_adaptive cfg conv gl farMesh requireFVarData patchTables h,
      CreateFromPatchTables_eq]
    refine ⟨_, rfl, ?_, ?_⟩
    · simpa using allocate_isAdaptive cfg conv gl OsdGLDrawContext.new patchTables requireFVarData
    · intro gl2 vbo k
      simpa [OsdGLDrawContext.updateVertexTexture] using
        allocate_isAdaptive cfg conv gl OsdGLDrawContext.new patchTables requireFVarData


theorem lt_freshName (names : List Nat) (n : Nat) (h : n ∈ names) : n < freshName names := by
  induction names with
  | nil => cases h
  | cons a rest ih =>
    simp only [freshName, List.foldr_cons] at ih ⊢
    rcases List.mem_cons.mp h with rfl | h
    · omega
    · have := ih h
      omega

theorem freshName_ne_zero (names : List Nat) : freshName names ≠ 0 := by
  simp [freshName]

theorem freshName_not_mem (names : List Nat) : freshName names ∉ names := by
  intro h
  have := lt_freshName names _ h
  omega

theorem lookup_setStore_ne (n m : Nat) (s : List Int) (l : List (Nat × List Int))
    (h : n ≠ m) : List.lookup n (setStore m s l) = List.lookup n l := by
  induction l with
  | nil => rfl
  | cons b rest ih =>
    obtain ⟨k, d⟩ := b
    simp only [setStore]
    by_cases hk : k = m
    · subst hk
      have : (n == k) = false := by simpa using h
      simp [List.lookup_cons, this, ih]
    · simp only [if_neg hk, List.lookup_cons, ih]

theorem lookup_filter_ne (n m : Nat) (l : List (Nat × List Int)) (h : n ≠ m) :
    List.lookup n (l.filter (fun b => b.1 ≠ m)) = List.lookup n l := by
  induction l with
  | nil => rfl
  | cons b rest ih =>
    obtain ⟨k, d⟩ := b
    by_cases hk : k = m
    · subst hk
      have e : (n == k) = false := by simpa using h
      have hf : decide ((k, d).1 ≠ k) = false := by simp
      rw [List.filter_cons, hf, List.lookup_cons, e]
      exact ih
    · have hf : decide ((k, d).1 ≠ m) = true := by simpa using hk
      rw [List.filter_cons, hf]
      simp only [if_true, List.lookup_cons, ih]

theorem mem_names_of_lookup (n : Nat) (s : List Int) (l : List (Nat × List Int))
    (h : List.lookup n l = some s) : n ∈ l.map Prod.fst := by
  induction l with
  | nil => cases h
  | cons b rest ih =>
    obtain ⟨k, d⟩ := b
    by_cases hk : n = k
    · simp [hk]
    · have e : (n == k) = false := by simpa using hk
      simp only [List.lookup_cons, e] at h
      simp [ih h]

theorem store_genBuffers (gl : GLState) (n : Nat) (s : List Int) (h : gl.store n = some s) :
    (glGenBuffers gl).1.store n = some s ∧ (glGenBuffers gl).2 ≠ n := by
  have hm := mem_names_of_lookup n s gl.buffers h
  have hlt := lt_freshName gl.bufferNames n hm
  have hne : n ≠ freshName gl.bufferNames := by omega
  have e : (n == freshName gl.bufferNames) = false := by simpa using hne
  refine ⟨?_, fun h2 => hne h2.symm⟩
  simp only [GLState.store, glGenBuffers, List.lookup_cons, e]
  exact h


theorem store_bufferData_ne (gl : GLState) (t : BufferTarget) (size wb : Nat)
    (data : List Int) (n : Nat) (h : gl.binding t ≠ n) :
    (glBufferData gl t size wb data).store n = gl.store n := by
  unfold glBufferData
  split_ifs
  · rfl
  · rfl
  · exact lookup_setStore_ne n _ _ _ (fun e => h e.symm)

theorem store_deleteBuffers_ne (gl : GLState) (m n : Nat) (h : m ≠ n) :
    (glDeleteBuffers gl m).store n = gl.store n := by
  unfold glDeleteBuffers
  by_cases hm : m = 0
  · rw [if_pos hm]
  · rw [if_neg hm]
    exact lookup_filter_ne n m _ (fun e => h e.symm)

theorem binding_bindBuffer (gl : GLState) (t : BufferTarget) (m : Nat) :
    (glBindBuffer gl t m).binding t = m := by
  cases t <;> rfl

theorem store_upload_fresh (gl : GLState) (t : BufferTarget) (size wb : Nat)
    (data : List Int) (h : size ≤ gl.memoryLimit) :
    (glBufferData (glBindBuffer (glGenBuffers gl).1 t (glGenBuffers gl).2) t size wb data).store
        (glGenBuffers gl).2 = some (data.take (size / wb)) := by
  have hb := binding_bindBuffer (glGenBuffers gl).1 t (glGenBuffers gl).2
  have h0 : (glGenBuffers gl).2 ≠ 0 := freshName_ne_zero _
  have hm : (glBindBuffer (glGenBuffers gl).1 t (glGenBuffers gl).2).memoryLimit =
      gl.memoryLimit := by cases t <;> rfl
  have hbuf : (glBindBuffer (glGenBuffers gl).1 t (glGenBuffers gl).2).buffers =
      ((glGenBuffers gl).2, []) :: gl.buffers := by cases t <;> rfl
  unfold glBufferData
  rw [hb, if_neg h0, hm, if_neg (by omega)]
  simp only [GLState.store, hbuf, setStore, if_true, List.lookup_cons_self]

theorem store_upload_other (gl : GLState) (t : BufferTarget) (size wb : Nat)
    (data : List Int) (n : Nat) (s : List Int) (h : gl.store n = some s) :
    (glBufferData (glBindBuffer (glGenBuffers gl).1 t (glGenBuffers gl).2) t size wb data).store n
      = some s := by
  obtain ⟨h1, h2⟩ := store_genBuffers gl n s h
  rw [store_bufferData_ne _ _ _ _ _ _ (by rw [binding_bindBuffer]; exact h2)]
  cases t <;> exact h1

theorem store_ptexBlock (gl : GLState) (tex size : Nat) (words : List Int) (format : GLFormat)
    (n : Nat) (s : List Int) (h : gl.store n = some s) :
    (glDeleteBuffers (glBindTexture (glTexBuffer (glBindTexture
      (glBufferData (glBindBuffer (glGenBuffers gl).1 .GL_TEXTURE_BUFFER (glGenBuffers gl).2)
        .GL_TEXTURE_BUFFER size 4 words) tex) format (glGenBuffers gl).2) 0)
      (glGenBuffers gl).2).store n = some s := by
  rw [store_deleteBuffers_ne _ _ _ (store_genBuffers gl n s h).2]
  exact store_upload_other gl _ size 4 words n s h

theorem store_fvarBlock (gl : GLState) (tex size : Nat) (words : List Int) (format : GLFormat)
    (n : Nat) (s : List Int) (h : gl.store n = some s) :
    (glBindTexture (glDeleteBuffers (glTexBuffer (glBindTexture
      (glBufferData (glBindBuffer (glGenBuffers gl).1 .GL_TEXTURE_BUFFER (glGenBuffers gl).2)
        .GL_TEXTURE_BUFFER size 4 words) tex) format (glGenBuffers gl).2)
      (glGenBuffers gl).2) 0).store n = some s := by
  show (glDeleteBuffers _ _).store n = some s
  rw [store_deleteBuffers_ne _ _ _ (store_genBuffers gl n s h).2]
  exact store_upload_other gl _ size 4 words n s h

/-- C4: for every non-empty uniform-mode face-vertex index list whose store the
GL is able to create, the index buffer uploaded by `allocateUniform` (the data
store of `patchIndexBuffer` after the call) holds the same values in the same
order as the input list, and so has as many elements. -/
theorem allocateUniform_indexBuffer (cfg : BuildConfig) (gl : GLState) (ctx : OsdGLDrawContext)
    (farMesh : FarMesh) (requireFVarData : Bool)
    (hne : farMesh.GetFaceVertices (farMesh.GetMaxLevel - 1) ≠ [])
    (hmem : (farMesh.GetFaceVertices (farMesh.GetMaxLevel - 1)).length * 4 ≤ gl.memoryLimit) :
    (ctx.allocateUniform cfg gl farMesh requireFVarData).1.store
        (ctx.allocateUniform cfg gl farMesh requireFVarData).2.1.patchIndexBuffer =
      some (farMesh.GetFaceVertices (farMesh.GetMaxLevel - 1)) ∧
    ((ctx.allocateUniform cfg gl farMesh requireFVarData).1.store
        (ctx.allocateUniform cfg gl farMesh requireFVarData).2.1.patchIndexBuffer).map
          List.length =
      some (farMesh.GetFaceVertices (farMesh.GetMaxLevel - 1)).length := by
  have _nonempty := hne
  have h1 := store_upload_fresh gl .GL_ELEMENT_ARRAY_BUFFER _ 4
    (farMesh.GetFaceVertices (farMesh.GetMaxLevel - 1)) hmem
  rw [Nat.mul_div_cancel _ (by decide : 0 < 4), List.take_length] at h1
  have key : (ctx.allocateUniform cfg gl farMesh requireFVarData).1.store
        (ctx.allocateUniform cfg gl farMesh requireFVarData).2.1.patchIndexBuffer =
      some (farMesh.GetFaceVertices (farMesh.GetMaxLevel - 1)) := by
    simp only [OsdGLDrawContext.allocateUniform]
    split_ifs
    all_goals first
      | exact h1
      | exact store_fvarBlock _ _ _ _ _ _ _ h1
      | exact store_ptexBlock _ _ _ _ _ _ _ h1
      | exact store_upload_other _ _ _ _ _ _ _ h1
      | exact store_fvarBlock _ _ _ _ _ _ _ (store_ptexBlock _ _ _ _ _ _ _ h1)
      | exact store_fvarBlock _ _ _ _ _ _ _ (store_upload_other _ _ _ _ _ _ _ h1)
      | exact store_ptexBlock _ _ _ _ _ _ _ (store_upload_other _ _ _ _ _ _ _ h1)
      | exact store_fvarBlock _ _ _ _ _ _ _
          (store_ptexBlock _ _ _ _ _ _ _ (store_upload_other _ _ _ _ _ _ _ h1))
  exact ⟨key, by rw [key]; rfl⟩

/-- Witness of C4: the one-quad mesh on a GL ES 2 build with room for the
upload. -/
theorem allocateUniform_indexBuffer_witness :
    (OsdGLDrawContext.new.allocateUniform glesConfig (GLState.initial 1024) oneQuadMesh
        false).1.store
        (OsdGLDrawContext.new.allocateUniform glesConfig (GLState.initial 1024) oneQuadMesh
          false).2.1.patchIndexBuffer = some [0, 1, 2, 3] ∧
    ((OsdGLDrawContext.new.allocateUniform glesConfig (GLState.initial 1024) oneQuadMesh
        false).1.store
        (OsdGLDrawContext.new.allocateUniform glesConfig (GLState.initial 1024) oneQuadMesh
          false).2.1.patchIndexBuffer).map List.length = some 4 :=
  allocateUniform_indexBuffer glesConfig (GLState.initial 1024) OsdGLDrawContext.new
    oneQuadMesh false (by decide) (by decide)

/-- The triangle-fallback buffer uploaded on a GL ES 2 build is the vector
`trisIndicesOf` of the face-vertex list, when the GL is able to create its
store. -/
theorem allocateUniform_trianglesBuffer (cfg : BuildConfig) (gl : GLState)
    (ctx : OsdGLDrawContext) (farMesh : FarMesh) (requireFVarData : Bool)
    (hes : cfg.GL_ES_VERSION_2_0 = true)
    (hmem : (farMesh.GetFaceVertices (farMesh.GetMaxLevel - 1)).length / 4 * 6 * 2
      ≤ gl.memoryLimit) :
    (ctx.allocateUniform cfg gl farMesh requireFVarData).1.store
        (ctx.allocateUniform cfg gl farMesh requireFVarData).2.1.patchTrianglesIndexBuffer =
      some (trisIndicesOf (farMesh.GetFaceVertices (farMesh.GetMaxLevel - 1))) := by
  have hm2 : ∀ g : GLState, (glBufferData (glBindBuffer (glGenBuffers gl).1
      .GL_ELEMENT_ARRAY_BUFFER (glGenBuffers gl).2) .GL_ELEMENT_ARRAY_BUFFER
      ((farMesh.GetFaceVertices (farMesh.GetMaxLevel - 1)).length * 4) 4
      (farMesh.GetFaceVertices (farMesh.GetMaxLevel - 1))).memoryLimit = gl.memoryLimit := by
    intro _
    unfold glBufferData
    split_ifs <;> rfl
  have h1 := store_upload_fresh (glBufferData (glBindBuffer (glGenBuffers gl).1
      .GL_ELEMENT_ARRAY_BUFFER (glGenBuffers gl).2) .GL_ELEMENT_ARRAY_BUFFER
      ((farMesh.GetFaceVertices (farMesh.GetMaxLevel - 1)).length * 4) 4
      (farMesh.GetFaceVertices (farMesh.GetMaxLevel - 1))) .GL_ELEMENT_ARRAY_BUFFER
    ((farMesh.GetFaceVertices (farMesh.GetMaxLevel - 1)).length / 4 * 6 * 2) 2
    (trisIndicesOf (farMesh.GetFaceVertices (farMesh.GetMaxLevel - 1)))
    (by rw [hm2 gl]; exact hmem)
  have hl : (trisIndicesOf (farMesh.GetFaceVertices (farMesh.GetMaxLevel - 1))).length =
      (farMesh.GetFaceVertices (farMesh.GetMaxLevel - 1)).length / 4 * 6 := by
    simp only [trisIndicesOf, splitQuadsLoop_length, List.length_nil]
    omega
  have ht : (trisIndicesOf (farMesh.GetFaceVertices (farMesh.GetMaxLevel - 1))).take
      ((farMesh.GetFaceVertices (farMesh.GetMaxLevel - 1)).length / 4 * 6 * 2 / 2) =
      trisIndicesOf (farMesh.GetFaceVertices (farMesh.GetMaxLevel - 1)) := by
    rw [Nat.mul_div_cancel _ (by decide : 0 < 2), ← hl, List.take_length]
  rw [ht] at h1
  simp only [OsdGLDrawContext.allocateUniform, hes, if_true]
  split_ifs
  all_goals first
    | exact h1
    | exact store_fvarBlock _ _ _ _ _ _ _ h1
    | exact store_ptexBlock _ _ _ _ _ _ _ h1
    | exact store_fvarBlock _ _ _ _ _ _ _ (store_ptexBlock _ _ _ _ _ _ _ h1)

/-- C5 (as amended): both `Create` overloads return a context in every case:
`allocate` and `allocateUniform` always report success, so neither a failed
upload of the index buffer nor the absence of an auxiliary buffer makes
`Create` return null. -/
theorem Create_always_some (cfg : BuildConfig) (conv : Converter) (gl : GLState)
    (farMesh : FarMesh) (patchTables : FarPatchTables) (requireFVarData : Bool) :
    (OsdGLDrawContext.Create cfg conv gl farMesh requireFVarData).2.isSome = true ∧
    (OsdGLDrawContext.CreateFromPatchTables cfg conv gl patchTables requireFVarData).2.isSome
      = true := by
  refine ⟨?_, by rw [CreateFromPatchTables_eq]; rfl⟩
  cases h : farMesh.GetPatchTables with
  | none => rw [Create_eq_uniform cfg conv gl farMesh requireFVarData h]; rfl
  | some pt =>
    rw [Create_eq_adaptive cfg conv gl farMesh requireFVarData pt h, CreateFromPatchTables_eq]
    rfl

/-- Counterexample to C5 as stated: on a GL unable to create any non-empty
store, the upload of the four face-vertex indices fails with
`GL_OUT_OF_MEMORY` and the index buffer stays empty, yet `Create` returns a
context; the same for the patch-table overload. -/
theorem Create_survives_failed_index_upload :
    (bareQuadMesh.GetFaceVertices (bareQuadMesh.GetMaxLevel - 1)).length = 4 ∧
    (OsdGLDrawContext.Create desktopConfig sampleConverter (GLState.initial 0)
      bareQuadMesh false).1.error = .GL_OUT_OF_MEMORY ∧
    (OsdGLDrawContext.Create desktopConfig sampleConverter (GLState.initial 0)
      bareQuadMesh false).1.store 1 = some [] ∧
    (OsdGLDrawContext.Create desktopConfig sampleConverter (GLState.initial 0)
      bareQuadMesh false).2.map (fun c => c.patchIndexBuffer) = some 1 ∧
    (OsdGLDrawContext.CreateFromPatchTables desktopConfig sampleConverter (GLState.initial 0)
      oneRegularPatch false).1.error = .GL_OUT_OF_MEMORY ∧
    (OsdGLDrawContext.CreateFromPatchTables desktopConfig sampleConverter (GLState.initial 0)
      oneRegularPatch false).2.map (fun c => c.patchIndexBuffer) = some 1 := by
  decide

/-- C6 at its failing input: a uniform-mode construction with face-varying data
required, on a build with buffer-backed textures and a mesh whose
ptex-coordinate and face-varying tables are empty, leaves the non-zero
handles 1 and 2 in the context. -/
theorem allocateUniform_empty_tables_present :
    bareQuadMesh.GetPtexCoordinates (bareQuadMesh.GetMaxLevel - 1) = [] ∧
    bareQuadMesh.GetFVarData (bareQuadMesh.GetMaxLevel - 1) = [] ∧
    (OsdGLDrawContext.Create desktopConfig sampleConverter (GLState.initial 1024)
      bareQuadMesh true).2.map
        (fun c => (c.ptexCoordinateTextureBuffer, c.fvarDataTextureBuffer)) = some (1, 2) := by
  decide

/-- C8 at its failing input: on a GL ES 2 build, the context built from the
one-quad mesh holds the triangle-fallback buffer 2, and after the destructor
that buffer is still in use with its six indices. -/
theorem destructor_leaks_triangle_buffer :
    (OsdGLDrawContext.Create glesConfig sampleConverter (GLState.initial 1024)
      oneQuadMesh false).2.map (fun c => c.patchTrianglesIndexBuffer) = some 2 ∧
    (OsdGLDrawContext.Create glesConfig sampleConverter (GLState.initial 1024)
      oneQuadMesh false).2.map
        (fun c => (c.destroy (OsdGLDrawContext.Create glesConfig sampleConverter
          (GLState.initial 1024) oneQuadMesh false).1).buffers) =
      some [(2, [0, 1, 2, 2, 3, 0])] := by
  decide

/-- Counterexample to C7 as stated: on a build with buffer-backed textures,
`createTextureBuffer` on an empty source returns the handle 1 and leaves
texture 1 in use, and a second call returns the handle 2. -/
theorem createTextureBuffer_empty_present :
    (createTextureBuffer desktopConfig (GLState.initial 1024) 0 4 [] .GL_R32I).2 = 1 ∧
    (createTextureBuffer desktopConfig (GLState.initial 1024) 0 4 [] .GL_R32I).1.textureNames
      = [1] ∧
    (createTextureBuffer desktopConfig
      (createTextureBuffer desktopConfig (GLState.initial 1024) 0 4 [] .GL_R32I).1
      0 4 [] .GL_R32I).2 = 2 := by
  decide

theorem textureNames_deleteBuffers (gl : GLState) (m : Nat) :
    (glDeleteBuffers gl m).textureNames = gl.textureNames := by
  unfold glDeleteBuffers
  by_cases hm : m = 0
  · rw [if_pos hm]
  · rw [if_neg hm]
    rfl

theorem textureNames_bufferData (gl : GLState) (t : BufferTarget) (size wb : Nat)
    (data : List Int) : (glBufferData gl t size wb data).textureNames = gl.textureNames := by
  unfold glBufferData
  split_ifs <;> rfl

theorem textureNames_bindBuffer (gl : GLState) (t : BufferTarget) (m : Nat) :
    (glBindBuffer gl t m).textureNames = gl.textureNames := by
  cases t <;> rfl

theorem textureNames_genBuffers (gl : GLState) :
    (glGenBuffers gl).1.textureNames = gl.textureNames := rfl

theorem textureNames_bindTexture (gl : GLState) (m : Nat) :
    (glBindTexture gl m).textureNames = gl.textureNames := rfl

theorem textureNames_texBuffer (gl : GLState) (format : GLFormat) (buffer : Nat) :
    (glTexBuffer gl format buffer).textureNames = gl.textureNames :=
  setAttachment_names _ _ _ _

/-- C7 (as amended): `createTextureBuffer` has no empty-source check.  On a
build without buffer-backed textures it returns the zero handle and leaves the
GL untouched, for every source and on every call; on a build with them it
returns a newly generated non-zero texture name, which stays in use, for
every source, the empty one included. -/
theorem createTextureBuffer_handle (es : Bool) (gl : GLState) (size elemBytes : Nat)
    (words : List Int) (format : GLFormat) :
    createTextureBuffer ⟨es, false⟩ gl size elemBytes words format = (gl, 0) ∧
    (createTextureBuffer ⟨es, true⟩ gl size elemBytes words format).2 ≠ 0 ∧
    (createTextureBuffer ⟨es, true⟩ gl size elemBytes words format).2 ∉ gl.textureNames ∧
    (createTextureBuffer ⟨es, true⟩ gl size elemBytes words format).1.textureNames =
      (createTextureBuffer ⟨es, true⟩ gl size elemBytes words format).2 :: gl.textureNames := by
  refine ⟨rfl, freshName_ne_zero _, freshName_not_mem _, ?_⟩
  simp only [createTextureBuffer, if_true, textureNames_deleteBuffers, textureNames_texBuffer,
    textureNames_bindTexture, textureNames_bindBuffer, textureNames_bufferData,
    textureNames_genBuffers]
  rfl

theorem textureNames_deleteTextures_self (gl : GLState) (n : Nat) (h : n ≠ 0) :
    n ∉ (glDeleteTextures gl n).textureNames := by
  unfold glDeleteTextures
  rw [if_neg h]
  simp [GLState.textureNames, List.mem_filter]

theorem textureNames_deleteTextures_not_mem (gl : GLState) (m n : Nat)
    (h : n ∉ gl.textureNames) : n ∉ (glDeleteTextures gl m).textureNames := by
  unfold glDeleteTextures
  by_cases hm : m = 0
  · rw [if_pos hm]; exact h
  · rw [if_neg hm]
    intro hmem
    apply h
    simp only [GLState.textureNames, List.mem_map, List.mem_filter] at hmem ⊢
    obtain ⟨t, ⟨ht, _⟩, e⟩ := hmem
    exact ⟨t, ht, e⟩

theorem bufferNames_deleteBuffers_self (gl : GLState) (n : Nat) (h : n ≠ 0) :
    n ∉ (glDeleteBuffers gl n).bufferNames := by
  unfold glDeleteBuffers
  rw [if_neg h]
  simp [GLState.bufferNames, List.mem_filter]

theorem buffers_deleteTextures (gl : GLState) (n : Nat) :
    (glDeleteTextures gl n).buffers = gl.buffers := by
  unfold glDeleteTextures
  by_cases hn : n = 0
  · rw [if_pos hn]
  · rw [if_neg hn]

/-- The destructor releases the index buffer and the five texture handles:
none of them, when non-zero, is in use afterwards. -/
theorem destroy_releases_listed (ctx : OsdGLDrawContext) (gl : GLState) :
    (ctx.patchIndexBuffer ≠ 0 → ctx.patchIndexBuffer ∉ (ctx.destroy gl).bufferNames) ∧
    ∀ h ∈ [ctx.vertexTextureBuffer, ctx.vertexValenceTextureBuffer,
        ctx.quadOffsetTextureBuffer, ctx.ptexCoordinateTextureBuffer,
        ctx.fvarDataTextureBuffer],
      h ≠ 0 → h ∉ (ctx.destroy gl).textureNames := by
  constructor
  · intro h
    simp only [OsdGLDrawContext.destroy, GLState.bufferNames, buffers_deleteTextures]
    exact bufferNames_deleteBuffers_self gl _ h
  · intro h hmem h0
    simp only [List.mem_cons, List.mem_singleton, List.not_mem_nil, or_false] at hmem
    unfold OsdGLDrawContext.destroy
    rcases hmem with rfl | rfl | rfl | rfl | rfl
    · exact textureNames_deleteTextures_not_mem _ _ _ (textureNames_deleteTextures_not_mem _ _ _
        (textureNames_deleteTextures_not_mem _ _ _ (textureNames_deleteTextures_not_mem _ _ _
          (textureNames_deleteTextures_self _ _ h0))))
    · exact textureNames_deleteTextures_not_mem _ _ _ (textureNames_deleteTextures_not_mem _ _ _
        (textureNames_deleteTextures_not_mem _ _ _ (textureNames_deleteTextures_self _ _ h0)))
    · exact textureNames_deleteTextures_not_mem _ _ _ (textureNames_deleteTextures_not_mem _ _ _
        (textureNames_deleteTextures_self _ _ h0))
    · exact textureNames_deleteTextures_not_mem _ _ _ (textureNames_deleteTextures_self _ _ h0)
    · exact textureNames_deleteTextures_self _ _ h0

/-- The adaptive path leaves the handle of every auxiliary table that is empty
at zero. -/
theorem CreateFromPatchTables_empty_tables_absent (cfg : BuildConfig) (conv : Converter)
    (gl : GLState) (patchTables : FarPatchTables) (requireFVarData : Bool) :
    ∃ ctx, (OsdGLDrawContext.CreateFromPatchTables cfg conv gl patchTables requireFVarData).2
        = some ctx ∧
      (patchTables.GetPtexCoordinatesTable = [] → ctx.ptexCoordinateTextureBuffer = 0) ∧
      (patchTables.GetFVarDataTable = [] → ctx.fvarDataTextureBuffer = 0) ∧
      (patchTables.GetVertexValenceTable = [] →
        ctx.vertexValenceTextureBuffer = 0 ∧ ctx.vertexTextureBuffer = 0) ∧
      (patchTables.GetQuadOffsetTable = [] → ctx.quadOffsetTextureBuffer = 0) := by
  rw [CreateFromPatchTables_eq]
  refine ⟨_, rfl, ?_, ?_, ?_, ?_⟩
  · intro h
    simp only [OsdGLDrawContext.allocate, h, List.isEmpty_nil, Bool.not_true, Bool.and_false,
      Bool.false_eq_true, if_false]
    split_ifs <;> rfl
  · intro h
    simp only [OsdGLDrawContext.allocate, h, List.isEmpty_nil, Bool.not_true, Bool.and_false,
      Bool.false_eq_true, if_false]
    split_ifs <;> rfl
  · intro h
    simp only [OsdGLDrawContext.allocate, h, List.isEmpty_nil, Bool.not_true, Bool.and_false,
      Bool.false_eq_true, if_false]
    split_ifs <;> exact ⟨rfl, rfl⟩
  · intro h
    simp only [OsdGLDrawContext.allocate, h, List.isEmpty_nil, Bool.not_true, Bool.and_false,
      Bool.false_eq_true, if_false]
    split_ifs <;> rfl

end OpenSubdiv
